import Mathlib

/-!
Shallow embedding of the parcus registration/dispatch framework
(`parcus/registration/`): entries, registries, the lazy discovery sweep,
and command dispatch.  Python methods that mutate `self` are modelled as
functions returning a pair of the raised-or-returned result and the
post-state; a raised exception is an `Except.error` value paired with the
state at the raise point.  External callables (command entry points,
configuration attach hooks) are modelled as explicit function parameters,
and invocation of a command entry point is additionally recorded in an
explicit call log so that invocation counts are observable.
-/

namespace Parcus

/-- Exceptions of `parcus/registration/core/exceptions.py`, plus the two
kinds of exception a module can raise while being imported during the
discovery sweep: an `ImportError` and any other exception. -/
inductive PyExn where
  | duplicateEntry (entry_id : String) (registry_id : String)
  | entryNotFound (entry_id : String) (registry_id : String)
  | entryPointNotConfigured (entry_id : String)
  | parserNotConfigured (entry_id : String)
  | importError (msg : String)
  | otherExn (msg : String)
deriving Repr, DecidableEq

/-- State of the abstract base `Entry` (`core/entry.py`): identifier,
optional configuration handle, and taxonomy tags.  The configuration
object type is the parameter `C`. -/
structure Entry (C : Type) where
  id : String
  config : Option C
  tags : List String
deriving Repr, DecidableEq

/-- Embedding of `Entry.__init__` (`core/entry.py`, lines 20-41).  The
body only stores its arguments (and logs); it has no validation branch
and no raise statement, so construction always succeeds.  The `Except`
result type records that construction is the place where a failure
would surface if the source had one. -/
def Entry.init {C : Type} (id : String) (config : Option C) (tags : List String) :
    Except PyExn (Entry C) :=
  Except.ok { id := id, config := config, tags := tags }

/-- Embedding of `Entry.has_tag` (`core/entry.py`): `tag in self._tags_`. -/
def Entry.has_tag {C : Type} (e : Entry C) (tag : String) : Bool :=
  e.tags.contains tag

/-- Embedding of `Entry.register_configuration` (`core/entry.py`,
lines 79-99).  `att` models the external effect
`self._config_.register(cls = self._config_, subparser = subparser)`
performed by the configuration object when one is attached. -/
def Entry.register_configuration {C : Type} (att : C → Except PyExn Unit) (e : Entry C) :
    Except PyExn Unit :=
  match e.config with
  | none => Except.error (PyExn.parserNotConfigured e.id)
  | some c => att c

/-- State of `CommandEntry` (`entries/command_entry.py`): the base entry
plus an optional entry point.  A Python callable that can return a value
or raise is modelled as `A → Except PyExn R`. -/
structure CommandEntry (C A R : Type) where
  base : Entry C
  entry_point : Option (A → Except PyExn R)

/-- Embedding of `CommandEntry.__init__` (`entries/command_entry.py`,
lines 16-32): calls the base constructor with `id` and `config` only, so
`tags` takes its default value `[]`, then stores the entry point. -/
def CommandEntry.init {C A R : Type} (id : String) (config : Option C)
    (entry_point : Option (A → Except PyExn R)) : Except PyExn (CommandEntry C A R) :=
  (Entry.init id config []).map (fun b => { base := b, entry_point := entry_point })

/-- State of `DatasetEntry` (`entries/dataset_entry.py`): the base entry
plus a dataset class reference, modelled as an opaque value of type `T`. -/
structure DatasetEntry (C T : Type) where
  base : Entry C
  cls : T

/-- Embedding of `DatasetEntry.__init__` (`entries/dataset_entry.py`,
lines 20-36): calls the base constructor with `id` and `config` only
(`tags` defaults to `[]`), then stores the class reference. -/
def DatasetEntry.init {C T : Type} (id : String) (cls : T) (config : Option C) :
    Except PyExn (DatasetEntry C T) :=
  (Entry.init id config []).map (fun b => { base := b, cls := cls })

/-- State of `ModelEntry` (`entries/model_entry.py`): the base entry plus
a model class reference, modelled as an opaque value of type `T`. -/
structure ModelEntry (C T : Type) where
  base : Entry C
  cls : T

/-- Embedding of `ModelEntry.__init__` (`entries/model_entry.py`,
lines 20-36): calls the base constructor with `id` and `config` only
(`tags` defaults to `[]`), then stores the class reference. -/
def ModelEntry.init {C T : Type} (id : String) (cls : T) (config : Option C) :
    Except PyExn (ModelEntry C T) :=
  (Entry.init id config []).map (fun b => { base := b, cls := cls })

/-- State of the abstract base `Registry` (`core/registry.py`):
`self._id_`, `self._entries_` (a Python dict, i.e. an insertion-ordered
association list with unique keys), and `self._loaded_`.  `E` is the
entry type of the concrete registry. -/
structure RegistryState (E : Type) where
  id : String
  entries : List (String × E)
  loaded : Bool
deriving Repr, DecidableEq

/-- Embedding of `Registry.__init__` (`core/registry.py`, lines 21-35):
empty entry mapping, `loaded` false. -/
def Registry.init (E : Type) (id : String) : RegistryState E :=
  { id := id, entries := [], loaded := false }

/-- Dictionary lookup on the entries mapping: first (and by the
duplicate guard, only) binding of the key. -/
def lookupEntry {E : Type} (entries : List (String × E)) (k : String) : Option E :=
  (entries.find? (fun p => p.fst == k)).map Prod.snd

/-- Embedding of `Registry.register` (`core/registry.py`, lines 116-138).
`create` models the abstract factory hook `self._create_entry_`, which
receives the entry id and the remaining keyword arguments (of type `A`)
and may itself raise.  On a duplicate id the method raises before any
mutation; otherwise the freshly created entry is inserted (a new dict
key appends in insertion order). -/
def Registry.register {E A : Type} (create : String → A → Except PyExn E)
    (st : RegistryState E) (entry_id : String) (kwargs : A) :
    Except PyExn Unit × RegistryState E :=
  if (lookupEntry st.entries entry_id).isSome then
    (Except.error (PyExn.duplicateEntry entry_id st.id), st)
  else
    match create entry_id kwargs with
    | Except.error e => (Except.error e, st)
    | Except.ok entry => (Except.ok (), { st with entries := st.entries ++ [(entry_id, entry)] })

/-- Result of executing a module body to completion of its top-level
code: it finishes normally, raises an `ImportError`, or raises some
other exception. -/
inductive ModResult where
  | ok
  | importFailure (msg : String)
  | raises (msg : String)
deriving Repr, DecidableEq

/-- Bool discriminator for the non-ImportError case of `ModResult`. -/
def ModResult.isRaise : ModResult → Bool
  | ModResult.raises _ => true
  | _ => false

/-- A module of the registry namespace as seen by the discovery sweep:
importing it performs the recorded decorator registrations in order
(each a `(entry_id, kwargs)` pair fed to `Registry.register`) and then
finishes with `result`. -/
structure PyModule (A : Type) where
  regs : List (String × A)
  result : ModResult
deriving Repr, DecidableEq

/-- The decorator side effects of one module body: perform each
registration in order; a registration that raises aborts the body with
that exception, keeping the registrations already performed. -/
def runRegs {E A : Type} (create : String → A → Except PyExn E) :
    RegistryState E → List (String × A) → Except PyExn Unit × RegistryState E
  | st, [] => (Except.ok (), st)
  | st, r :: rest =>
    match Registry.register create st r.fst r.snd with
    | (Except.ok _, st1) => runRegs create st1 rest
    | (Except.error e, st1) => (Except.error e, st1)

/-- Importing one module: run its registrations, then finish with the
module result.  An exception raised mid-body keeps earlier effects. -/
def importModule {E A : Type} (create : String → A → Except PyExn E)
    (st : RegistryState E) (m : PyModule A) : Except PyExn Unit × RegistryState E :=
  match runRegs create st m.regs with
  | (Except.ok _, st1) =>
    match m.result with
    | ModResult.ok => (Except.ok (), st1)
    | ModResult.importFailure msg => (Except.error (PyExn.importError msg), st1)
    | ModResult.raises msg => (Except.error (PyExn.otherExn msg), st1)
  | (Except.error e, st1) => (Except.error e, st1)

/-- The walk loop of `Registry._import_all_modules_` (`core/registry.py`,
lines 196-212): each module in turn is imported inside
`try ... except ImportError`, so an `ImportError` is logged and skipped
while any other exception propagates and aborts the walk.  The `Nat`
component counts the `import_module` calls performed. -/
def walkImport {E A : Type} (create : String → A → Except PyExn E) :
    RegistryState E → List (PyModule A) → (Except PyExn Unit × RegistryState E) × Nat
  | st, [] => ((Except.ok (), st), 0)
  | st, m :: rest =>
    match importModule create st m with
    | (Except.ok _, st1) =>
      let r := walkImport create st1 rest
      (r.fst, r.snd + 1)
    | (Except.error (PyExn.importError _), st1) =>
      let r := walkImport create st1 rest
      (r.fst, r.snd + 1)
    | (Except.error e, st1) => ((Except.error e, st1), 1)

/-- Embedding of `Registry._import_all_modules_` (`core/registry.py`,
lines 178-218).  `pkg` is the discoverable namespace: `none` models the
registry package itself failing to import (caught: warn and return,
no module imports), `some mods` the flat list of walked modules. -/
def Registry.import_all_modules {E A : Type} (create : String → A → Except PyExn E)
    (st : RegistryState E) (pkg : Option (List (PyModule A))) :
    (Except PyExn Unit × RegistryState E) × Nat :=
  match pkg with
  | none => ((Except.ok (), st), 0)
  | some mods => walkImport create st mods

/-- Embedding of `Registry._load_all_` (`core/registry.py`, lines
220-229): run the import sweep, then set `loaded` true.  If the sweep
raises, the flag assignment is never reached. -/
def Registry.load_all {E A : Type} (create : String → A → Except PyExn E)
    (st : RegistryState E) (pkg : Option (List (PyModule A))) :
    (Except PyExn Unit × RegistryState E) × Nat :=
  match Registry.import_all_modules create st pkg with
  | ((Except.ok _, st1), n) => ((Except.ok (), { st1 with loaded := true }), n)
  | ((Except.error e, st1), n) => ((Except.error e, st1), n)

/-- Embedding of `Registry._ensure_loaded_` (`core/registry.py`, lines
174-176): `if not self._loaded_: self._load_all_()`. -/
def Registry.ensure_loaded {E A : Type} (create : String → A → Except PyExn E)
    (st : RegistryState E) (pkg : Option (List (PyModule A))) :
    (Except PyExn Unit × RegistryState E) × Nat :=
  if st.loaded then ((Except.ok (), st), 0) else Registry.load_all create st pkg

/-- Embedding of `Registry.get_entry` (`core/registry.py`, lines 56-83):
ensure loaded, then raise `EntryNotFoundError` on a missing id or return
the stored entry. -/
def Registry.get_entry {E A : Type} (create : String → A → Except PyExn E)
    (st : RegistryState E) (pkg : Option (List (PyModule A))) (entry_id : String) :
    Except PyExn E × RegistryState E :=
  match Registry.ensure_loaded create st pkg with
  | ((Except.ok _, st1), _) =>
    match lookupEntry st1.entries entry_id with
    | none => (Except.error (PyExn.entryNotFound entry_id st1.id), st1)
    | some e => (Except.ok e, st1)
  | ((Except.error ex, st1), _) => (Except.error ex, st1)

/-- Embedding of `Registry.list_entries` (`core/registry.py`, lines
85-114): ensure loaded; with an empty filter return all keys, otherwise
the keys of entries whose tag list contains every filter tag.  `tagsOf`
reads `entry.tags` on the entry type of the concrete registry. -/
def Registry.list_entries {E A : Type} (tagsOf : E → List String)
    (create : String → A → Except PyExn E) (st : RegistryState E)
    (pkg : Option (List (PyModule A))) (filter_by : List String) :
    Except PyExn (List String) × RegistryState E :=
  match Registry.ensure_loaded create st pkg with
  | ((Except.ok _, st1), _) =>
    if filter_by.length == 0 then
      (Except.ok (st1.entries.map Prod.fst), st1)
    else
      (Except.ok ((st1.entries.filter
        (fun p => filter_by.all (fun tag => (tagsOf p.snd).contains tag))).map Prod.fst), st1)
  | ((Except.error ex, st1), _) => (Except.error ex, st1)

/-- The loop body of `Registry.register_configurations`: attach each
entry in turn; an attach that raises propagates. -/
def attachAll {E : Type} (att : E → Except PyExn Unit) : List E → Except PyExn Unit
  | [] => Except.ok ()
  | e :: rest =>
    match att e with
    | Except.ok _ => attachAll att rest
    | Except.error ex => Except.error ex

/-- Embedding of `Registry.register_configurations` (`core/registry.py`,
lines 140-159): ensure loaded, then call `register_configuration` on
every current entry.  `att` models
`entry.register_configuration(subparser = subparser)`. -/
def Registry.register_configurations {E A : Type} (att : E → Except PyExn Unit)
    (create : String → A → Except PyExn E) (st : RegistryState E)
    (pkg : Option (List (PyModule A))) : Except PyExn Unit × RegistryState E :=
  match Registry.ensure_loaded create st pkg with
  | ((Except.ok _, st1), _) => (attachAll att (st1.entries.map Prod.snd), st1)
  | ((Except.error ex, st1), _) => (Except.error ex, st1)

/-- Embedding of `Registry.__contains__` (`core/registry.py`, lines
233-244): a direct membership test on the current entries mapping; note
that it does not call `_ensure_loaded_`. -/
def Registry.contains {E : Type} (st : RegistryState E) (entry_id : String) : Bool :=
  (lookupEntry st.entries entry_id).isSome

/-- Embedding of `Registry.__len__` (`core/registry.py`, lines 262-264):
the size of the current entries mapping; it does not call
`_ensure_loaded_`. -/
def Registry.len {E : Type} (st : RegistryState E) : Nat :=
  st.entries.length

/-- Embedding of `CommandRegistry.dispatch`
(`registries/command_registry.py`, lines 31-57): look the command up via
`get_entry` (which may trigger the sweep and may raise), raise
`EntryPointNotConfiguredError` when the entry point is `None`, otherwise
invoke the entry point once with the forwarded arguments.  `log` is the
observable list of invocations of command entry points: it grows by
exactly one element, the forwarded arguments, at the single call site. -/
def CommandRegistry.dispatch {C A R KW : Type}
    (create : String → KW → Except PyExn (CommandEntry C A R))
    (st : RegistryState (CommandEntry C A R)) (pkg : Option (List (PyModule KW)))
    (log : List A) (command_id : String) (args : A) :
    (Except PyExn R × RegistryState (CommandEntry C A R)) × List A :=
  match Registry.get_entry create st pkg command_id with
  | (Except.ok entry, st1) =>
    match entry.entry_point with
    | none => ((Except.error (PyExn.entryPointNotConfigured command_id), st1), log)
    | some f => ((f args, st1), log ++ [args])
  | (Except.error ex, st1) => ((Except.error ex, st1), log)

/-- Keyword arguments of `CommandRegistry.register` after the entry id:
what `CommandRegistry._create_entry_` forwards to `CommandEntry`. -/
structure CommandKwargs (C A R : Type) where
  config : Option C
  entry_point : Option (A → Except PyExn R)

/-- Embedding of `CommandRegistry._create_entry_`
(`registries/command_registry.py`, lines 61-68). -/
def commandCreate {C A R : Type} (id : String) (kw : CommandKwargs C A R) :
    Except PyExn (CommandEntry C A R) :=
  CommandEntry.init id kw.config kw.entry_point

/-- Keyword arguments of `DatasetRegistry.register` after the entry id. -/
structure DatasetKwargs (C T : Type) where
  cls : T
  config : Option C

/-- Embedding of `DatasetRegistry._create_entry_`
(`registries/dataset_registry.py`, lines 59-66). -/
def datasetCreate {C T : Type} (id : String) (kw : DatasetKwargs C T) :
    Except PyExn (DatasetEntry C T) :=
  DatasetEntry.init id kw.cls kw.config

/-- Keyword arguments of `ModelRegistry.register` after the entry id. -/
structure ModelKwargs (C T : Type) where
  cls : T
  config : Option C

/-- Embedding of `ModelRegistry._create_entry_`
(`registries/model_registry.py`, lines 57-66). -/
def modelCreate {C T : Type} (id : String) (kw : ModelKwargs C T) :
    Except PyExn (ModelEntry C T) :=
  ModelEntry.init id kw.cls kw.config

/-- Concrete entry point used in the dispatch examples: add one. -/
def incEP : Nat → Except PyExn Nat := fun n => Except.ok (n + 1)

/-- Concrete command entry holding an entry point. -/
def entryRun : CommandEntry Unit Nat Nat :=
  { base := { id := "run", config := none, tags := [] }, entry_point := some incEP }

/-- Concrete command entry registered without an entry point. -/
def entryBad : CommandEntry Unit Nat Nat :=
  { base := { id := "bad", config := none, tags := [] }, entry_point := none }

/-- Concrete loaded command registry state with two entries. -/
def demoCmdState : RegistryState (CommandEntry Unit Nat Nat) :=
  { id := "commands", entries := [("run", entryRun), ("bad", entryBad)], loaded := true }

/-- Create hook that is never reached in the loaded-state examples. -/
def demoCmdCreate : String → Unit → Except PyExn (CommandEntry Unit Nat Nat) :=
  fun _ _ => Except.error (PyExn.otherExn "unused")

/-- Concrete entry tagged with two keywords. -/
def entA : Entry Unit := { id := "a", config := none, tags := ["t1", "t2"] }

/-- Concrete entry tagged with one keyword. -/
def entB : Entry Unit := { id := "b", config := none, tags := ["t2"] }

/-- Concrete loaded registry state over plain entries, for filtering. -/
def demoTagState : RegistryState (Entry Unit) :=
  { id := "datasets", entries := [("a", entA), ("b", entB)], loaded := true }

/-- Create hook that is never reached in the tag-filtering examples. -/
def demoEntryCreate : String → Unit → Except PyExn (Entry Unit) :=
  fun _ _ => Except.error (PyExn.otherExn "unused")

/-- Create hook for the plain demo registry over `Nat` entries: the
created entry is the kwargs value itself. -/
def natCreate : String → Nat → Except PyExn Nat := fun _ k => Except.ok k

/-- Demo discoverable namespace: one module whose import registers
`cmd ↦ 7` and completes normally. -/
def demoPkg : Option (List (PyModule Nat)) :=
  some [{ regs := [("cmd", 7)], result := ModResult.ok }]

/-- Namespace in which the middle module raises a non-ImportError
exception at import time; the last module would register `b`. -/
def crashPkg : Option (List (PyModule Nat)) :=
  some [{ regs := [("a", 1)], result := ModResult.ok },
        { regs := [], result := ModResult.raises "boom" },
        { regs := [("b", 2)], result := ModResult.ok }]

/-- Namespace in which the middle module fails with an `ImportError` and
the two others register `a` and `b`. -/
def benignMods : List (PyModule Nat) :=
  [{ regs := [("a", 1)], result := ModResult.ok },
   { regs := [], result := ModResult.importFailure "no dep" },
   { regs := [("b", 2)], result := ModResult.ok }]

/-- Embedding of `CommandRegistry.__init__`
(`registries/command_registry.py`, lines 16-19). -/
def CommandRegistry.init (C A R : Type) : RegistryState (CommandEntry C A R) :=
  Registry.init (CommandEntry C A R) "commands"

/-- Embedding of `DatasetRegistry.__init__`
(`registries/dataset_registry.py`, lines 20-23). -/
def DatasetRegistry.init (C T : Type) : RegistryState (DatasetEntry C T) :=
  Registry.init (DatasetEntry C T) "datasets"

/-- Embedding of `ModelRegistry.__init__`
(`registries/model_registry.py`, lines 20-23). -/
def ModelRegistry.init (C T : Type) : RegistryState (ModelEntry C T) :=
  Registry.init (ModelEntry C T) "models"

/-! ## Helper lemmas -/

/-- Dictionary lookup misses exactly the keys absent from the mapping. -/
theorem lookupEntry_eq_none_iff {E : Type} (entries : List (String × E)) (k : String) :
    lookupEntry entries k = none ↔ k ∉ entries.map Prod.fst := by
  simp only [lookupEntry, Option.map_eq_none', List.find?_eq_none, beq_iff_eq, List.mem_map]
  constructor
  · intro h hk
    obtain ⟨p, hp, hpk⟩ := hk
    exact h p hp hpk
  · intro h p hp hpk
    exact h ⟨p, hp, hpk⟩

/-- `register` never touches the `loaded` flag. -/
theorem register_loaded_eq {E A : Type} (create : String → A → Except PyExn E)
    (st : RegistryState E) (entry_id : String) (kwargs : A) :
    (Registry.register create st entry_id kwargs).snd.loaded = st.loaded := by
  unfold Registry.register
  by_cases h : (lookupEntry st.entries entry_id).isSome
  · simp [h]
  · simp [h]
    cases create entry_id kwargs <;> simp

/-- `register` never touches the registry id. -/
theorem register_id_eq {E A : Type} (create : String → A → Except PyExn E)
    (st : RegistryState E) (entry_id : String) (kwargs : A) :
    (Registry.register create st entry_id kwargs).snd.id = st.id := by
  unfold Registry.register
  by_cases h : (lookupEntry st.entries entry_id).isSome
  · simp [h]
  · simp [h]
    cases create entry_id kwargs <;> simp

/-- On an already loaded registry, `_ensure_loaded_` is a complete no-op:
it returns immediately, performs zero module imports, and leaves the
state untouched. -/
theorem ensure_loaded_of_loaded {E A : Type} (create : String → A → Except PyExn E)
    (st : RegistryState E) (pkg : Option (List (PyModule A))) (hl : st.loaded = true) :
    Registry.ensure_loaded create st pkg = ((Except.ok (), st), 0) := by
  simp [Registry.ensure_loaded, hl]

/-- On a loaded registry, `get_entry` of a present id returns the stored
entry and leaves the state unchanged. -/
theorem get_entry_loaded_found {E A : Type} (create : String → A → Except PyExn E)
    (st : RegistryState E) (pkg : Option (List (PyModule A))) (entry_id : String) (e : E)
    (hl : st.loaded = true) (he : lookupEntry st.entries entry_id = some e) :
    Registry.get_entry create st pkg entry_id = (Except.ok e, st) := by
  simp [Registry.get_entry, ensure_loaded_of_loaded create st pkg hl, he]

/-! ## Claim theorems -/

/-- Claim C1: for every registry and every id already present in its
entries mapping, calling `register(id, ...)` again raises
`DuplicateEntryError` carrying the entry id and the registry id, and the
registry state is returned exactly unchanged: the entry stored under the
id, the set of entries, and the entry count are all as before the call. -/
theorem c1_duplicate_register_rejected {E A : Type} (create : String → A → Except PyExn E)
    (st : RegistryState E) (entry_id : String) (kwargs : A) (e : E)
    (h : lookupEntry st.entries entry_id = some e) :
    Registry.register create st entry_id kwargs
      = (Except.error (PyExn.duplicateEntry entry_id st.id), st) := by
  simp [Registry.register, h]

/-- Witness for C1: a registry holding `x` rejects a second registration
of `x` and is unchanged. -/
theorem c1_witness :
    Registry.register (fun i k => Except.ok (i, k))
        { id := "commands", entries := [("x", ("x", 0))], loaded := false } "x" (0 : Nat)
      = (Except.error (PyExn.duplicateEntry "x" "commands"),
         { id := "commands", entries := [("x", ("x", 0))], loaded := false }) :=
  c1_duplicate_register_rejected (fun i k => Except.ok (i, k))
    { id := "commands", entries := [("x", ("x", 0))], loaded := false } "x" 0 ("x", 0) rfl

/-- Claim C2: once the registry is loaded, `get_entry` raises
`EntryNotFoundError` (carrying the entry id and registry id) exactly for
the ids absent from the entries mapping, and returns exactly the stored
entry value for every present id, leaving the state unchanged. -/
theorem c2_get_entry_total {E A : Type} (create : String → A → Except PyExn E)
    (st : RegistryState E) (pkg : Option (List (PyModule A))) (entry_id : String)
    (hl : st.loaded = true) :
    (lookupEntry st.entries entry_id = none →
      Registry.get_entry create st pkg entry_id
        = (Except.error (PyExn.entryNotFound entry_id st.id), st)) ∧
    (∀ e, lookupEntry st.entries entry_id = some e →
      Registry.get_entry create st pkg entry_id = (Except.ok e, st)) := by
  constructor
  · intro h
    simp [Registry.get_entry, ensure_loaded_of_loaded create st pkg hl, h]
  · intro e h
    simp [Registry.get_entry, ensure_loaded_of_loaded create st pkg hl, h]

/-- Witness for C2: on a loaded registry holding `m ↦ 5`, `get_entry`
returns `5` for `m` and raises `EntryNotFoundError` for `q`. -/
theorem c2_witness :
    (Registry.get_entry (fun _ _ => Except.ok 0)
        { id := "models", entries := [("m", 5)], loaded := true } (none : Option (List (PyModule Unit))) "m"
      = (Except.ok 5, { id := "models", entries := [("m", 5)], loaded := true })) ∧
    (Registry.get_entry (fun _ _ => Except.ok 0)
        { id := "models", entries := [("m", 5)], loaded := true } (none : Option (List (PyModule Unit))) "q"
      = (Except.error (PyExn.entryNotFound "q" "models"),
         { id := "models", entries := [("m", 5)], loaded := true })) :=
  ⟨(c2_get_entry_total (fun _ _ => Except.ok 0)
      { id := "models", entries := [("m", 5)], loaded := true } none "m" rfl).2 5 rfl,
   (c2_get_entry_total (fun _ _ => Except.ok 0)
      { id := "models", entries := [("m", 5)], loaded := true } none "q" rfl).1 rfl⟩

/-- Claim C7 counterexample: constructing an `Entry` with the empty
string as id succeeds (no exception), refuting the claim that for every
empty-string id the construction fails.  The body of `Entry.__init__`
contains no validation branch at all. -/
theorem c7_counterexample :
    Entry.init "" (none : Option Nat) [] = Except.ok { id := "", config := none, tags := [] } :=
  rfl

/-- Claim C7 amended: `Entry` construction performs no validation at
all — for every id, including the empty string, every optional config
and every tag sequence, construction succeeds and stores the arguments
verbatim; uniqueness is enforced only by registries, never by `Entry`
itself. -/
theorem c7_entry_construction_never_fails {C : Type} (id : String) (config : Option C)
    (tags : List String) :
    Entry.init id config tags = Except.ok { id := id, config := config, tags := tags } :=
  rfl

/-- Claim C8: `register_configuration` raises `ParserNotConfiguredError`
carrying the entry id precisely when the entry was constructed without a
configuration; when a configuration is present the call is exactly the
delegation to the configuration object, so any error that surfaces is the
delegate raising, never a registration error of `register_configuration`
itself.  The third conjunct makes the iff explicit: whenever the delegate
does not itself raise `ParserNotConfiguredError`, the call raises that
error exactly when the configuration is absent. -/
theorem c8_register_configuration_contract {C : Type} (att : C → Except PyExn Unit)
    (e : Entry C) :
    (e.config = none →
      Entry.register_configuration att e = Except.error (PyExn.parserNotConfigured e.id)) ∧
    (∀ c, e.config = some c → Entry.register_configuration att e = att c) ∧
    ((∀ c, att c ≠ Except.error (PyExn.parserNotConfigured e.id)) →
      (Entry.register_configuration att e = Except.error (PyExn.parserNotConfigured e.id)
        ↔ e.config = none)) := by
  refine ⟨?_, ?_, ?_⟩
  · intro h
    simp [Entry.register_configuration, h]
  · intro c h
    simp [Entry.register_configuration, h]
  · intro hatt
    cases hc : e.config with
    | none => simp [Entry.register_configuration, hc]
    | some c => simp [Entry.register_configuration, hc, hatt c]

/-- Witness for C8: an entry without a configuration raises
`ParserNotConfiguredError("x")`; an entry holding configuration `3` is
attached by delegating to it. -/
theorem c8_witness :
    (Entry.register_configuration (fun _ => Except.ok ())
        { id := "x", config := (none : Option Nat), tags := [] }
      = Except.error (PyExn.parserNotConfigured "x")) ∧
    (Entry.register_configuration (fun _ => Except.ok ())
        { id := "y", config := some 3, tags := [] } = Except.ok ()) :=
  ⟨(c8_register_configuration_contract (fun _ => Except.ok ())
      { id := "x", config := none, tags := [] }).1 rfl,
   (c8_register_configuration_contract (fun _ => Except.ok ())
      { id := "y", config := some 3, tags := [] }).2.1 3 rfl⟩

/-- Claim C3: on a loaded command registry, dispatching a registered id
whose entry holds an entry point invokes that entry point exactly once —
the call log grows by exactly the forwarded arguments — and returns
exactly its result, a returned value or a propagated exception alike;
dispatching a registered id whose entry point is `None` raises
`EntryPointNotConfiguredError` and invokes nothing (the call log is
unchanged). -/
theorem c3_dispatch_contract {C A R KW : Type}
    (create : String → KW → Except PyExn (CommandEntry C A R))
    (st : RegistryState (CommandEntry C A R)) (pkg : Option (List (PyModule KW)))
    (log : List A) (command_id : String) (args : A) (entry : CommandEntry C A R)
    (hl : st.loaded = true) (he : lookupEntry st.entries command_id = some entry) :
    (entry.entry_point = none →
      CommandRegistry.dispatch create st pkg log command_id args
        = ((Except.error (PyExn.entryPointNotConfigured command_id), st), log)) ∧
    (∀ f, entry.entry_point = some f →
      CommandRegistry.dispatch create st pkg log command_id args
        = ((f args, st), log ++ [args])) := by
  constructor
  · intro hep
    simp [CommandRegistry.dispatch,
      get_entry_loaded_found create st pkg command_id entry hl he, hep]
  · intro f hep
    simp [CommandRegistry.dispatch,
      get_entry_loaded_found create st pkg command_id entry hl he, hep]

/-- Witness for C3: dispatching `run` with argument `4` invokes the
add-one entry point once, logging `[4]` and returning `5`; dispatching
`bad` raises `EntryPointNotConfiguredError` with an empty log. -/
theorem c3_witness :
    (CommandRegistry.dispatch demoCmdCreate demoCmdState none [] "run" 4
      = ((Except.ok 5, demoCmdState), [4])) ∧
    (CommandRegistry.dispatch demoCmdCreate demoCmdState none [] "bad" 4
      = ((Except.error (PyExn.entryPointNotConfigured "bad"), demoCmdState), [])) :=
  ⟨(c3_dispatch_contract demoCmdCreate demoCmdState none [] "run" 4 entryRun rfl rfl).2
      incEP rfl,
   (c3_dispatch_contract demoCmdCreate demoCmdState none [] "bad" 4 entryBad rfl rfl).1 rfl⟩

/-- Claim C4: on a loaded registry, `list_entries` with filter tags
returns exactly the ids of entries whose tag list contains every filter
tag (the empty filter returns all ids), without changing the state; and
`has_tag` on an entry agrees with membership in the tags the entry was
constructed with. -/
theorem c4_list_entries_and_tags {C A : Type} (create : String → A → Except PyExn (Entry C))
    (st : RegistryState (Entry C)) (pkg : Option (List (PyModule A))) (fb : List String)
    (hl : st.loaded = true) :
    (∃ l, (Registry.list_entries Entry.tags create st pkg fb).fst = Except.ok l ∧
      ∀ i, i ∈ l ↔ ∃ e, (i, e) ∈ st.entries ∧ ∀ t ∈ fb, t ∈ e.tags) ∧
    ((Registry.list_entries Entry.tags create st pkg []).fst
      = Except.ok (st.entries.map Prod.fst)) ∧
    ((Registry.list_entries Entry.tags create st pkg fb).snd = st) ∧
    (∀ (id : String) (cfg : Option C) (tg : List String) (e : Entry C) (tag : String),
      Entry.init id cfg tg = Except.ok e → (e.has_tag tag = true ↔ tag ∈ tg)) := by
  have hens := ensure_loaded_of_loaded create st pkg hl
  refine ⟨?_, ?_, ?_, ?_⟩
  · by_cases hfb : fb = []
    · subst hfb
      refine ⟨st.entries.map Prod.fst, by simp [Registry.list_entries, hens], ?_⟩
      intro i
      rw [List.mem_map]
      constructor
      · rintro ⟨p, hp, hpi⟩
        exact ⟨p.snd, by cases p; simpa [hpi.symm] using hp, by simp⟩
      · rintro ⟨e, he, _⟩
        exact ⟨(i, e), he, rfl⟩
    · have hlen : (fb.length == 0) = false := by
        simp [List.length_eq_zero, hfb]
      refine ⟨(st.entries.filter
          (fun p => fb.all (fun tag => (Entry.tags p.snd).contains tag))).map Prod.fst,
        by simp [Registry.list_entries, hens, hlen], ?_⟩
      intro i
      rw [List.mem_map]
      constructor
      · rintro ⟨p, hp, hpi⟩
        rw [List.mem_filter] at hp
        refine ⟨p.snd, by cases p; simpa [hpi.symm] using hp.1, ?_⟩
        intro t ht
        simpa using (List.all_eq_true.mp hp.2) t ht
      · rintro ⟨e, he, hall⟩
        refine ⟨(i, e), List.mem_filter.mpr ⟨he, ?_⟩, rfl⟩
        rw [List.all_eq_true]
        intro t ht
        simpa using hall t ht
  · simp [Registry.list_entries, hens]
  · by_cases hfb : (fb.length == 0) = true
    · simp [Registry.list_entries, hens, hfb]
    · simp only [Bool.not_eq_true] at hfb
      simp [Registry.list_entries, hens, hfb]
  · intro id cfg tg e tag h
    simp only [Entry.init, Except.ok.injEq] at h
    subst h
    simp [Entry.has_tag]

/-- Witness for C4: on a loaded registry holding entries `a` (tags
`t1, t2`) and `b` (tags `t2`), the empty filter lists both ids and a
filtered listing leaves the state unchanged. -/
theorem c4_witness :
    ((Registry.list_entries Entry.tags demoEntryCreate demoTagState none []).fst
      = Except.ok ["a", "b"]) ∧
    ((Registry.list_entries Entry.tags demoEntryCreate demoTagState none ["t1"]).snd
      = demoTagState) :=
  ⟨(c4_list_entries_and_tags demoEntryCreate demoTagState none [] rfl).2.1,
   (c4_list_entries_and_tags demoEntryCreate demoTagState none ["t1"] rfl).2.2.1⟩

/-- Claim C5: `is_loaded` starts false at registry construction; a
completed `_ensure_loaded_` leaves it true; on an already loaded registry
a further `_ensure_loaded_` is a no-op performing zero module imports and
leaving entries and flag untouched; and no operation — `register`,
`get_entry`, `list_entries`, `register_configurations` — ever resets the
flag to false. -/
theorem c5_loaded_monotone {E A : Type} (create : String → A → Except PyExn E)
    (st : RegistryState E) (pkg : Option (List (PyModule A))) (rid entry_id : String)
    (kwargs : A) (att : E → Except PyExn Unit) (fb : List String) (tagsOf : E → List String) :
    ((Registry.init E rid).loaded = false) ∧
    (st.loaded = true → Registry.ensure_loaded create st pkg = ((Except.ok (), st), 0)) ∧
    ((Registry.ensure_loaded create st pkg).fst.fst = Except.ok () →
      (Registry.ensure_loaded create st pkg).fst.snd.loaded = true) ∧
    ((Registry.register create st entry_id kwargs).snd.loaded = st.loaded) ∧
    (st.loaded = true → (Registry.get_entry create st pkg entry_id).snd.loaded = true) ∧
    (st.loaded = true →
      (Registry.list_entries tagsOf create st pkg fb).snd.loaded = true) ∧
    (st.loaded = true →
      (Registry.register_configurations att create st pkg).snd.loaded = true) := by
  refine ⟨rfl, fun hl => ensure_loaded_of_loaded create st pkg hl, ?_, ?_, ?_, ?_, ?_⟩
  · by_cases hl : st.loaded = true
    · simp [ensure_loaded_of_loaded create st pkg hl, hl]
    · have hl0 : st.loaded = false := by simpa using hl
      simp only [Registry.ensure_loaded, hl0, Bool.false_eq_true, if_false]
      unfold Registry.load_all
      rcases himp : Registry.import_all_modules create st pkg with ⟨⟨r, st1⟩, n⟩
      cases r <;> simp
  · exact register_loaded_eq create st entry_id kwargs
  · intro hl
    have hens := ensure_loaded_of_loaded create st pkg hl
    cases hlook : lookupEntry st.entries entry_id <;>
      simp [Registry.get_entry, hens, hlook, hl]
  · intro hl
    have hens := ensure_loaded_of_loaded create st pkg hl
    by_cases hfb : (fb.length == 0) = true
    · simp [Registry.list_entries, hens, hfb, hl]
    · simp only [Bool.not_eq_true] at hfb
      simp [Registry.list_entries, hens, hfb, hl]
  · intro hl
    have hens := ensure_loaded_of_loaded create st pkg hl
    simp [Registry.register_configurations, hens, hl]

/-- Witness for C5: a second `_ensure_loaded_` on the loaded demo
registry returns immediately with zero imports and the state unchanged. -/
theorem c5_witness :
    Registry.ensure_loaded demoCmdCreate demoCmdState none = ((Except.ok (), demoCmdState), 0) :=
  (c5_loaded_monotone demoCmdCreate demoCmdState none "commands" "run" () (fun _ => Except.ok ())
    [] (fun e => e.base.tags)).2.1 rfl

/-- Claim C9: the three concrete entry constructors never forward tags,
so every entry created through the concrete registries has an empty tag
list; consequently `has_tag` is false for every tag on such entries, and
`list_entries` with any non-empty filter returns no ids on a registry
whose entries all have empty tags. -/
theorem c9_concrete_entries_untagged {C A R D T M U KW : Type}
    (create : String → KW → Except PyExn (CommandEntry C A R))
    (st : RegistryState (CommandEntry C A R)) (pkg : Option (List (PyModule KW)))
    (fb : List String) (tag : String) :
    (∀ (id : String) (cfg : Option C) (ep : Option (A → Except PyExn R))
        (e : CommandEntry C A R),
      CommandEntry.init id cfg ep = Except.ok e → e.base.tags = []) ∧
    (∀ (id : String) (cls : T) (cfg : Option D) (e : DatasetEntry D T),
      DatasetEntry.init id cls cfg = Except.ok e → e.base.tags = []) ∧
    (∀ (id : String) (cls : U) (cfg : Option M) (e : ModelEntry M U),
      ModelEntry.init id cls cfg = Except.ok e → e.base.tags = []) ∧
    (∀ (e : CommandEntry C A R), e.base.tags = [] → Entry.has_tag e.base tag = false) ∧
    (st.loaded = true → fb ≠ [] →
      (∀ p ∈ st.entries, p.snd.base.tags = ([] : List String)) →
      (Registry.list_entries (fun e => e.base.tags) create st pkg fb).fst = Except.ok []) := by
  refine ⟨?_, ?_, ?_, ?_, ?_⟩
  · intro id cfg ep e h
    simp only [CommandEntry.init, Entry.init, Except.map, Except.ok.injEq] at h
    subst h
    rfl
  · intro id cls cfg e h
    simp only [DatasetEntry.init, Entry.init, Except.map, Except.ok.injEq] at h
    subst h
    rfl
  · intro id cls cfg e h
    simp only [ModelEntry.init, Entry.init, Except.map, Except.ok.injEq] at h
    subst h
    rfl
  · intro e h
    simp [Entry.has_tag, h]
  · intro hl hfb htags
    have hens := ensure_loaded_of_loaded create st pkg hl
    have hlen : (fb.length == 0) = false := by simp [List.length_eq_zero, hfb]
    simp [Registry.list_entries, hens, hlen]
    intro a b hab
    cases fb with
    | nil => exact absurd rfl hfb
    | cons t rest =>
      refine ⟨t, List.mem_cons_self t rest, ?_⟩
      rw [htags (a, b) hab]
      exact List.not_mem_nil t

/-- Witness for C9: the demo command registry, whose two entries were
created without tags, lists no ids under the filter `t`. -/
theorem c9_witness :
    (Registry.list_entries (fun e => e.base.tags) demoCmdCreate demoCmdState none ["t"]).fst
      = Except.ok [] :=
  (@c9_concrete_entries_untagged Unit Nat Nat Unit Unit Unit Unit Unit
      demoCmdCreate demoCmdState none ["t"] "t").2.2.2.2 rfl (by simp)
    (by
      intro p hp
      simp only [demoCmdState, List.mem_cons, List.not_mem_nil, or_false] at hp
      rcases hp with h | h
      · rw [h]; rfl
      · rw [h]; rfl)

/-- Claim C10: the membership test and the entry count read the current
entries mapping only — they ignore the loaded flag entirely and, being
embedded as pure state readers, trigger no sweep and change no state —
and membership can be false for an id that `get_entry`, which does
trigger the sweep, successfully returns: on a fresh registry whose
namespace registers `cmd`, membership is false and the count zero, yet
`get_entry` returns the entry and leaves the registry loaded. -/
theorem c10_contains_len_frame :
    (∀ (E : Type) (st : RegistryState E) (entry_id : String) (b : Bool),
      Registry.contains { st with loaded := b } entry_id = Registry.contains st entry_id) ∧
    (∀ (E : Type) (st : RegistryState E) (b : Bool),
      Registry.len { st with loaded := b } = Registry.len st) ∧
    ((Registry.init Nat "commands").loaded = false) ∧
    (Registry.contains (Registry.init Nat "commands") "cmd" = false) ∧
    (Registry.len (Registry.init Nat "commands") = 0) ∧
    ((Registry.get_entry natCreate (Registry.init Nat "commands") demoPkg "cmd").fst
      = Except.ok 7) ∧
    ((Registry.get_entry natCreate (Registry.init Nat "commands") demoPkg "cmd").snd.loaded
      = true) ∧
    (Registry.contains
      (Registry.get_entry natCreate (Registry.init Nat "commands") demoPkg "cmd").snd "cmd"
      = true) :=
  ⟨fun _ _ _ _ => rfl, fun _ _ _ => rfl, rfl, rfl, rfl, rfl, rfl, rfl⟩

/-- With a create hook that always succeeds and globally fresh ids, the
decorator registrations of one module body all succeed and append in
order. -/
theorem runRegs_ok_fresh {E A : Type} (mk : String → A → E) (st : RegistryState E)
    (regs : List (String × A)) :
    ((st.entries.map Prod.fst) ++ regs.map Prod.fst).Nodup →
    runRegs (fun i k => Except.ok (mk i k)) st regs
      = (Except.ok (), { st with
          entries := st.entries ++ regs.map (fun r => (r.fst, mk r.fst r.snd)) }) := by
  induction regs generalizing st with
  | nil =>
    intro _
    simp [runRegs]
  | cons r rest ih =>
    intro h
    have hdisj : (st.entries.map Prod.fst).Disjoint ((r :: rest).map Prod.fst) :=
      (List.nodup_append.mp h).2.2
    have hmem : r.fst ∉ st.entries.map Prod.fst := by
      intro hin
      exact hdisj hin (by simp)
    have hlook : lookupEntry st.entries r.fst = none :=
      (lookupEntry_eq_none_iff st.entries r.fst).mpr hmem
    have hreg : Registry.register (fun i k => Except.ok (mk i k)) st r.fst r.snd
        = (Except.ok (), { st with entries := st.entries ++ [(r.fst, mk r.fst r.snd)] }) := by
      simp [Registry.register, hlook]
    have h2 : ((({ st with entries := st.entries ++ [(r.fst, mk r.fst r.snd)] } :
        RegistryState E).entries.map Prod.fst) ++ rest.map Prod.fst).Nodup := by
      simpa [List.append_assoc] using h
    simp only [runRegs, hreg]
    rw [ih _ h2]
    simp [List.append_assoc]

/-- The discovery walk over modules that either import cleanly or fail
with an `ImportError` having registered nothing: every module is
attempted, `ImportError` failures are skipped, and the registrations of
the cleanly-imported modules all land. -/
theorem walkImport_benign {E A : Type} (mk : String → A → E) (st : RegistryState E)
    (mods : List (PyModule A)) :
    (∀ m ∈ mods, m.result = ModResult.ok ∨ (m.regs = [] ∧ m.result.isRaise = false)) →
    ((st.entries.map Prod.fst) ++ (mods.flatMap PyModule.regs).map Prod.fst).Nodup →
    walkImport (fun i k => Except.ok (mk i k)) st mods
      = ((Except.ok (), { st with entries := st.entries
            ++ (mods.flatMap PyModule.regs).map (fun r => (r.fst, mk r.fst r.snd)) }),
         mods.length) := by
  induction mods generalizing st with
  | nil =>
    intro _ _
    simp [walkImport]
  | cons m rest ih =>
    intro hben hfresh
    have hbenRest : ∀ m2 ∈ rest,
        m2.result = ModResult.ok ∨ (m2.regs = [] ∧ m2.result.isRaise = false) :=
      fun m2 hm2 => hben m2 (List.mem_cons_of_mem m hm2)
    have hfresh' : (((st.entries.map Prod.fst) ++ m.regs.map Prod.fst)
        ++ (rest.flatMap PyModule.regs).map Prod.fst).Nodup := by
      rw [List.append_assoc]
      simpa [List.flatMap_cons] using hfresh
    have hmapfst : ((m.regs.map (fun r => (r.fst, mk r.fst r.snd))).map Prod.fst)
        = m.regs.map Prod.fst := by
      rw [List.map_map]
      rfl
    cases hres : m.result with
    | ok =>
      have hfr1 : ((st.entries.map Prod.fst) ++ m.regs.map Prod.fst).Nodup :=
        (List.sublist_append_left _ _).nodup hfresh'
      have hrun := runRegs_ok_fresh mk st m.regs hfr1
      have himp : importModule (fun i k => Except.ok (mk i k)) st m
          = (Except.ok (), { st with entries := st.entries ++ List.map (fun r => (r.fst, mk r.fst r.snd)) m.regs }) := by
        simp [importModule, hrun, hres]
      have hfr2 : (((st.entries ++ m.regs.map (fun r => (r.fst, mk r.fst r.snd))).map Prod.fst)
          ++ (rest.flatMap PyModule.regs).map Prod.fst).Nodup := by
        rw [List.map_append, hmapfst]
        exact hfresh'
      simp only [walkImport, himp]
      rw [ih _ hbenRest hfr2]
      simp [List.flatMap_cons, List.append_assoc]
    | importFailure msg =>
      rcases hben m (List.mem_cons_self m rest) with hok | ⟨hregs, _⟩
      · rw [hres] at hok
        cases hok
      · have hrun : runRegs (fun i k => Except.ok (mk i k)) st m.regs
            = (Except.ok (), st) := by
          rw [hregs]
          simp [runRegs]
        have himp : importModule (fun i k => Except.ok (mk i k)) st m
            = (Except.error (PyExn.importError msg), st) := by
          simp [importModule, hrun, hres]
        have hfr2 : ((st.entries.map Prod.fst)
            ++ (rest.flatMap PyModule.regs).map Prod.fst).Nodup := by
          simpa [List.flatMap_cons, hregs] using hfresh
        simp only [walkImport, himp]
        rw [ih _ hbenRest hfr2]
        simp [List.flatMap_cons, hregs]
    | raises msg =>
      rcases hben m (List.mem_cons_self m rest) with hok | ⟨_, hraise⟩
      · rw [hres] at hok
        cases hok
      · rw [hres] at hraise
        simp [ModResult.isRaise] at hraise

/-- Claim C6 counterexample: the sweep is not resilient to an arbitrary
exception raised at import time.  On a fresh registry whose namespace is
`crashPkg` — whose middle module raises a non-ImportError exception —
the sweep propagates that exception instead of completing: the load
fails, `is_loaded` stays false, and the entry `b` of the unrelated,
successfully importable last module is absent. -/
theorem c6_counterexample :
    ((Registry.load_all natCreate (Registry.init Nat "commands") crashPkg).fst.fst
      = Except.error (PyExn.otherExn "boom")) ∧
    ((Registry.load_all natCreate (Registry.init Nat "commands") crashPkg).fst.snd.loaded
      = false) ∧
    (lookupEntry
      (Registry.load_all natCreate (Registry.init Nat "commands") crashPkg).fst.snd.entries "b"
      = none) :=
  ⟨rfl, rfl, rfl⟩

/-- Claim C6 amended: when every failing module of the namespace fails
with an `ImportError` (registering nothing before failing) — the only
kind of import failure the sweep catches — the sweep completes without
raising: every module is attempted, failures are logged and skipped, the
entries registered by the successfully importable modules are all
present afterwards, and the registry ends loaded. -/
theorem c6_sweep_tolerates_import_errors {E A : Type} (mk : String → A → E)
    (st : RegistryState E) (mods : List (PyModule A))
    (hben : ∀ m ∈ mods, m.result = ModResult.ok ∨ (m.regs = [] ∧ m.result.isRaise = false))
    (hfresh : ((st.entries.map Prod.fst) ++ (mods.flatMap PyModule.regs).map Prod.fst).Nodup) :
    Registry.load_all (fun i k => Except.ok (mk i k)) st (some mods)
      = ((Except.ok (),
          (⟨st.id,
            st.entries ++ (mods.flatMap PyModule.regs).map (fun r => (r.fst, mk r.fst r.snd)),
            true⟩ : RegistryState E)), mods.length) := by
  have hwalk := walkImport_benign mk st mods hben hfresh
  simp [Registry.load_all, Registry.import_all_modules, hwalk]

/-- Witness for the amended C6: sweeping `benignMods` — one module with
an `ImportError` between two clean ones — loads the registry with both
clean registrations present after three import attempts. -/
theorem c6_witness :
    Registry.load_all (fun i k => Except.ok ((fun _ n => n) i k)) (Registry.init Nat "commands")
        (some benignMods)
      = ((Except.ok (),
          { id := "commands", entries := [("a", 1), ("b", 2)], loaded := true }), 3) :=
  c6_sweep_tolerates_import_errors (fun _ n => n) (Registry.init Nat "commands") benignMods
    (by decide) (by decide)

end Parcus
